import Mathlib

/-!
Verification of the federated aggregation engine of nodeatlas (src/cache.go),
shallowly embedded in Lean 4.

The embedding follows src/cache.go line by line:
* `Node` is the node record (its struct definition lives outside the
  provided sources; fields and types follow their uses in cache.go and the
  test driver: Addr, OwnerName, OwnerEmail, Latitude, Longitude, Status,
  SourceID, RetrieveTime).  Go `float64` coordinates are only ever copied
  by this core, never computed with, so they are carried as `Int`.
* The Go `map[string]int` source registry is modelled as an association
  list with unique keys; `lookupSource`/`insertSource` give Go map
  read/write semantics and `List.length` models Go `len`.
* Database, HTTP and JSON effects are oracles passed in as parameters:
  a fetch outcome per address, a prepare/exec outcome for SQL statements,
  the current Unix time, and the rows backing `cached_maps`.
* Goroutine scheduling is explicit: an interleaving schedule for the
  registry race in `GetAllFromChildMap`, a completion order plus
  loop-variable read times for the fan-out in `GetAllFromChildMaps`.
-/

namespace NodeAtlas

/-- The node record (fields from their uses in src/cache.go and the spec's
data model): address, owner name/email, coordinates, status, resolved
source ID, and the unix retrieval timestamp (0 = unset). -/
structure Node where
  addr : String
  ownerName : String
  ownerEmail : String
  latitude : Int
  longitude : Int
  status : Int
  sourceID : Int
  retrieveTime : Int
deriving DecidableEq

/-- Go map read `(*sourceToID)[source]`: first binding of the key, if any. -/
def lookupSource (m : List (String × Int)) (k : String) : Option Int :=
  match m with
  | [] => none
  | (k2, v) :: rest => if k2 = k then some v else lookupSource rest k

/-- Go map write `(*sourceToID)[source] = id`: overwrite the existing
binding of the key, or append a new binding. -/
def insertSource (m : List (String × Int)) (k : String) (v : Int) :
    List (String × Int) :=
  match m with
  | [] => [(k, v)]
  | (k2, v2) :: rest =>
      if k2 = k then (k, v) :: rest else (k2, v2) :: insertSource rest k v

/-- The source-ID resolution section of GetAllFromChildMap
(src/cache.go lines 261-274), run by a single thread without
interleaving: read under the read lock; on a miss, take the write lock and
insert `id = len(*sourceToID) + 1` with NO re-check of presence (the code
has none). -/
def resolveSource (m : List (String × Int)) (source : String) :
    Int × List (String × Int) :=
  match lookupSource m source with
  | some id => (id, m)
  | none =>
      ((m.length : Int) + 1, insertSource m source ((m.length : Int) + 1))

/-- `n.SourceID = id` (src/cache.go line 279). -/
def stampSource (id : Int) (n : Node) : Node := { n with sourceID := id }

/-- The origin-label substitution at src/cache.go lines 254-256:
`if !replacedLocal && source == "local" { source = address }`.
Note `replacedLocal` is declared at line 250 and never assigned, so it is
false on every iteration. -/
def effectiveOrigin (address : String) (replacedLocal : Bool)
    (source : String) : String :=
  if !replacedLocal && (source == "local") then address else source

/-- The decoded payload of `/api/all` (src/cache.go lines 142-145):
`data` maps origin labels to node lists, `error` is the remote-reported
error.  Go map iteration order is captured by the list order. -/
structure nodeDumpWrapper where
  data : List (String × List Node)
  error : Option String
deriving DecidableEq

/-- Outcome of one HTTP fetch + JSON decode against a child map:
transport failure (src/cache.go line 225), decode failure (line 234), or
a decoded `nodeDumpWrapper` (whose `error` field may still be set). -/
inductive FetchOutcome where
  | transportError
  | decodeError
  | ok (w : nodeDumpWrapper)
deriving DecidableEq

/-- The per-origin loop of GetAllFromChildMap (src/cache.go lines
251-284): substitute the origin label, resolve it through the shared
registry (mutating it on a miss), stamp every node of that origin with
the resolved ID, and concatenate. -/
def localizeNodes (address : String) (replacedLocal : Bool) :
    List (String × Int) → List (String × List Node) →
    List Node × List (String × Int)
  | m, [] => ([], m)
  | m, (source, remoteNodes) :: rest =>
      (remoteNodes.map
          (stampSource
            (resolveSource m (effectiveOrigin address replacedLocal source)).1)
        ++ (localizeNodes address replacedLocal
            (resolveSource m (effectiveOrigin address replacedLocal source)).2
            rest).1,
       (localizeNodes address replacedLocal
          (resolveSource m (effectiveOrigin address replacedLocal source)).2
          rest).2)

/-- GetAllFromChildMap (src/cache.go lines 220-286) run atomically by one
fetcher: transport or decode failures and remote-reported errors are
logged and yield `none` (the Go `nil` slice); otherwise the decoded
origins are localized against the shared registry.  Returns the node
slice and the registry left behind. -/
def GetAllFromChildMap (address : String) (outcome : FetchOutcome)
    (m : List (String × Int)) :
    Option (List Node) × List (String × Int) :=
  match outcome with
  | .transportError => (none, m)
  | .decodeError => (none, m)
  | .ok w =>
      match w.error with
      | some _ => (none, m)
      | none =>
          (some (localizeNodes address false m w.data).1,
           (localizeNodes address false m w.data).2)

/-- True when the fetch yields the Go `nil` slice: transport failure,
decode failure, or a remote-reported error (src/cache.go lines 225-241). -/
def fetchFailed : FetchOutcome → Bool
  | .transportError => true
  | .decodeError => true
  | .ok w => w.error.isSome

/-!  The fan-out of GetAllFromChildMaps (src/cache.go lines 169-175).

The loop `for _, address := range addresses { go func() { ... address ...
}() }` starts one goroutine per element, but the closure captures the
single shared loop variable `address` by reference (Go versions up to
1.21, which this pre-modules repository uses, declare one variable for
the whole loop).  The variable holds `addresses[j]` while iteration `j`
runs and `addresses[n-1]` after the loop ends, so the goroutine spawned
at iteration `i` reads whatever the variable holds when it starts, some
iteration in `[i, n-1]`. -/

/-- The address observed by the goroutine spawned at loop iteration `i`
when its body reads the captured loop variable at logical iteration `r`
(clamped to `[i, n-1]`: the read cannot precede the spawn, and the
variable stops changing after the loop). -/
def effectiveAddress (addresses : List String) (i r : Nat) : String :=
  addresses.getD (min (max i r) (addresses.length - 1)) ""

/-- One task of the fan-out: the goroutine spawned at iteration `i` runs
GetAllFromChildMap against the address it observes (src/cache.go lines
170-174 and 196-213). -/
def taskFetch (addresses : List String) (fetch : String → FetchOutcome)
    (readIdx : Nat → Nat) (m : List (String × Int)) (i : Nat) :
    Option (List Node) × List (String × Int) :=
  GetAllFromChildMap (effectiveAddress addresses i (readIdx i))
    (fetch (effectiveAddress addresses i (readIdx i))) m

/-- Runs the spawned tasks in completion order `order` (each task's fetch,
registry mutation, and locked append to `nodes` taken atomically; a `nil`
fetch appends nothing, src/cache.go lines 203-212).  Returns the merged
node slice and the final registry. -/
def runTasks (addresses : List String) (fetch : String → FetchOutcome)
    (readIdx : Nat → Nat) :
    List (String × Int) → List Nat → List Node × List (String × Int)
  | m, [] => ([], m)
  | m, i :: rest =>
      ((taskFetch addresses fetch readIdx m i).1.getD []
          ++ (runTasks addresses fetch readIdx
              (taskFetch addresses fetch readIdx m i).2 rest).1,
       (runTasks addresses fetch readIdx
          (taskFetch addresses fetch readIdx m i).2 rest).2)

/-- The merged node collection one aggregation pass hands to the
committer (the `nodes` slice of src/cache.go line 153 after the join
barrier at lines 186-188). -/
def mergedNodes (addresses : List String) (fetch : String → FetchOutcome)
    (readIdx : Nat → Nat) (m : List (String × Int)) (order : List Nat) :
    List Node :=
  (runTasks addresses fetch readIdx m order).1

/-- GetMapSourceToID (src/cache.go lines 51-76): seed the map with
`"local" -> 0`, then overlay every row of `cached_maps`; a query error is
returned to the caller.  `dbRows` is the oracle for the database read. -/
def GetMapSourceToID (dbRows : Except String (List (String × Int))) :
    Except String (List (String × Int)) :=
  match dbRows with
  | .error e => .error e
  | .ok rows =>
      .ok (rows.foldl (fun m p => insertSource m p.1 p.2) [("local", 0)])

/-- One row as handed to `stmt.Exec` by CacheNodes (src/cache.go lines
38-40): address, owner, lat, lon, status, source, retrieved. -/
structure CachedRow where
  address : String
  owner : String
  lat : Int
  lon : Int
  status : Int
  source : Int
  retrieved : Int
deriving DecidableEq

/-- The argument tuple CacheNodes builds for one node (src/cache.go lines
34-40): `retrieved` defaults to the current Unix time when the node's
RetrieveTime is zero. -/
def rowOfNode (now : Int) (node : Node) : CachedRow :=
  { address := node.addr
    owner := node.ownerName
    lat := node.latitude
    lon := node.longitude
    status := node.status
    source := node.sourceID
    retrieved := if node.retrieveTime = 0 then now else node.retrieveTime }

/-- The insert loop of CacheNodes (src/cache.go lines 33-44): execute row
by row, returning immediately with the store's error on the first failed
`Exec`.  Returns the rows the store executed successfully and the error,
if any. -/
def cacheNodesLoop (exec : CachedRow → Option String) (now : Int) :
    List Node → List CachedRow × Option String
  | [] => ([], none)
  | node :: rest =>
      match exec (rowOfNode now node) with
      | some e => ([], some e)
      | none =>
          (rowOfNode now node :: (cacheNodesLoop exec now rest).1,
           (cacheNodesLoop exec now rest).2)

/-- CacheNodes (src/cache.go lines 25-47): prepare the batch statement
(`prepareErr` is the oracle for `db.Prepare`), then run the insert loop. -/
def CacheNodes (prepareErr : Option String)
    (exec : CachedRow → Option String) (now : Int) (nodes : List Node) :
    List CachedRow × Option String :=
  match prepareErr with
  | some e => ([], some e)
  | none => cacheNodesLoop exec now nodes

/-- GetAllFromChildMaps (src/cache.go lines 150-191): load the source
registry (aborting on failure), fan out one task per address, join, and
hand the merged slice to CacheNodes, whose error is the pass's result. -/
def GetAllFromChildMaps (addresses : List String)
    (dbRows : Except String (List (String × Int)))
    (fetch : String → FetchOutcome) (readIdx : Nat → Nat)
    (order : List Nat) (prepareErr : Option String)
    (exec : CachedRow → Option String) (now : Int) : Except String Unit :=
  match GetMapSourceToID dbRows with
  | .error e => .error e
  | .ok m0 =>
      match (CacheNodes prepareErr exec now
          (mergedNodes addresses fetch readIdx m0 order)).2 with
      | some e => .error e
      | none => .ok ()

/-!  The SQL statements of the two cache-insert paths, verbatim from
src/cache.go lines 13-15 and 26-28, with helpers that read off the
column list (the names between the first pair of parentheses) and the
number of `?` value placeholders. -/

/-- The statement prepared by CacheNode (src/cache.go lines 13-15). -/
def cacheNodeSQL : String :=
  "INSERT INTO nodes_cached\n(address, owner, lat, lon, status, expiration)\nVALUES(?, ?, ?, ?, ?, ?, ?)"

/-- The statement prepared by CacheNodes (src/cache.go lines 26-28). -/
def cacheNodesSQL : String :=
  "INSERT INTO nodes_cached\n(address, owner, lat, lon, status, source, retrieved)\nVALUES (?, ?, ?, ?, ?, ?, ?)"

/-- Splits a character list at every occurrence of the separator. -/
def splitChars (sep : Char) : List Char → List (List Char)
  | [] => [[]]
  | c :: rest =>
      if c = sep then [] :: splitChars sep rest
      else
        match splitChars sep rest with
        | [] => [[c]]
        | g :: gs => (c :: g) :: gs

/-- Drops leading and trailing whitespace from a character list. -/
def trimChars (cs : List Char) : List Char :=
  ((cs.dropWhile fun c => c == ' ' || c == '\n').reverse.dropWhile
      fun c => c == ' ' || c == '\n').reverse

/-- The column names of an INSERT statement: the comma-separated names
between the first opening parenthesis and the next closing one. -/
def columnsOf (sql : String) : List String :=
  (splitChars ','
      (((sql.toList.dropWhile fun c => c != '(').drop 1).takeWhile
        fun c => c != ')')).map
    fun g => String.mk (trimChars g)

/-- The number of `?` value placeholders of a statement. -/
def placeholderCount (sql : String) : Nat :=
  (sql.toList.filter (fun c => c = '?')).length

/-- A value passed positionally to `stmt.Exec`. -/
inductive SqlValue where
  | s (v : String)
  | i (v : Int)
deriving DecidableEq

/-- CacheNode (src/cache.go lines 12-23): the statement it prepares and
the argument tuple it executes, in source order — (Addr, OwnerName,
Latitude, Longitude, SourceID, Status).  The `expiry` parameter appears
nowhere in the body. -/
def CacheNode (node : Node) (expiry : Int) : String × List SqlValue :=
  (cacheNodeSQL,
   [.s node.addr, .s node.ownerName, .i node.latitude, .i node.longitude,
    .i node.sourceID, .i node.status])

/-!  Interleaved model of the registry access in GetAllFromChildMap
(src/cache.go lines 261-274), for the concurrency claims.  A resolver
thread performs two atomic sections: the read under `RLock` (lines
261-263) and, after a miss, the allocation under `Lock` (lines 267-270).
Between the two sections no lock is held, and the allocation does not
re-check presence. -/

/-- Program counter of one resolver thread: before the locked read, after
a missed read (about to take the write lock), or finished with its ID. -/
inductive ResolvePc where
  | start
  | missed
  | done (id : Int)
deriving DecidableEq

/-- One fetcher thread resolving `host` through the shared registry. -/
structure ResolverThread where
  host : String
  pc : ResolvePc
deriving DecidableEq

/-- One atomic section of a resolver thread against the shared registry:
the `RLock` read (hit finishes with the found ID, miss proceeds to the
write path) or the `Lock` section `id = len(*sourceToID) + 1;
(*sourceToID)[source] = id` — with no presence re-check. -/
def stepResolver (m : List (String × Int)) (t : ResolverThread) :
    List (String × Int) × ResolverThread :=
  match t.pc with
  | .start =>
      match lookupSource m t.host with
      | some id => (m, { t with pc := .done id })
      | none => (m, { t with pc := .missed })
  | .missed =>
      (insertSource m t.host ((m.length : Int) + 1),
       { t with pc := .done ((m.length : Int) + 1) })
  | .done _ => (m, t)

/-- Runs an interleaving schedule (a list of thread indices; each entry
lets that thread execute its next atomic section) over the shared
registry. -/
def runSchedule :
    List Nat → List (String × Int) → List ResolverThread →
    List (String × Int) × List ResolverThread
  | [], m, ts => (m, ts)
  | i :: rest, m, ts =>
      match ts[i]? with
      | none => runSchedule rest m ts
      | some t =>
          runSchedule rest (stepResolver m t).1 (ts.set i (stepResolver m t).2)

/-- Sample node used in concrete evaluations. -/
def sampleNodeA : Node :=
  { addr := "10.1.1.1"
    ownerName := "alice"
    ownerEmail := "alice@example.org"
    latitude := 10
    longitude := -20
    status := 1
    sourceID := 7
    retrieveTime := 0 }

/-- Second sample node used in concrete evaluations. -/
def sampleNodeB : Node :=
  { addr := "10.2.2.2"
    ownerName := "bob"
    ownerEmail := "bob@example.org"
    latitude := 30
    longitude := 40
    status := 2
    sourceID := 0
    retrieveTime := 5 }

/-- A registry assigns ID 0 only to the reserved hostname `"local"`
(the spec's data-model invariant: all other IDs strictly positive). -/
def zeroOnlyLocal (m : List (String × Int)) : Prop :=
  ∀ p ∈ m, p.2 = 0 → p.1 = "local"

instance (m : List (String × Int)) : Decidable (zeroOnlyLocal m) := by
  unfold zeroOnlyLocal
  infer_instance

/-- A successful lookup returns a binding that is in the list. -/
theorem lookupSource_mem {m : List (String × Int)} {k : String} {v : Int}
    (h : lookupSource m k = some v) : (k, v) ∈ m := by
  induction m with
  | nil => simp [lookupSource] at h
  | cons p rest ih =>
      obtain ⟨k2, v2⟩ := p
      by_cases hk : k2 = k
      · subst hk
        simp [lookupSource] at h
        simp [h]
      · simp [lookupSource, hk] at h
        exact List.mem_cons_of_mem _ (ih h)

/-- Every binding of the updated map is an old binding or the new one. -/
theorem mem_insertSource {m : List (String × Int)} {k : String} {v : Int}
    {p : String × Int} (h : p ∈ insertSource m k v) : p ∈ m ∨ p = (k, v) := by
  induction m with
  | nil => simpa [insertSource] using h
  | cons q rest ih =>
      obtain ⟨k2, v2⟩ := q
      by_cases hk : k2 = k
      · subst hk
        simp [insertSource] at h
        rcases h with h | h
        · right; simpa using h
        · left; exact List.mem_cons_of_mem _ h
      · simp [insertSource, hk] at h
        rcases h with h | h
        · left; simp [h]
        · rcases ih h with h2 | h2
          · left; exact List.mem_cons_of_mem _ h2
          · right; exact h2

/-- Resolution never hands out ID 0 for a hostname other than `"local"`,
as long as the registry maps only `"local"` to 0. -/
theorem resolveSource_fst_ne_zero {m : List (String × Int)} {h : String}
    (hz : zeroOnlyLocal m) (hne : h ≠ "local") : (resolveSource m h).1 ≠ 0 := by
  unfold resolveSource
  cases hl : lookupSource m h with
  | some id =>
      simp only []
      intro h0
      exact hne (hz _ (lookupSource_mem hl) (by simpa using h0))
  | none =>
      simp only []
      intro h0
      omega

/-- Resolution preserves the only-local-is-zero registry invariant:
a fresh allocation inserts `len + 1 > 0`. -/
theorem zeroOnlyLocal_resolveSource {m : List (String × Int)} (s : String)
    (hz : zeroOnlyLocal m) : zeroOnlyLocal (resolveSource m s).2 := by
  unfold resolveSource
  cases hl : lookupSource m s with
  | some id => simpa using hz
  | none =>
      simp only []
      intro p hp hp0
      rcases mem_insertSource hp with h | h
      · exact hz p h hp0
      · subst h
        simp at hp0
        omega

/-- The per-origin loop preserves the only-local-is-zero invariant. -/
theorem zeroOnlyLocal_localizeNodes (address : String) (rl : Bool)
    (xs : List (String × List Node)) :
    ∀ m, zeroOnlyLocal m → zeroOnlyLocal (localizeNodes address rl m xs).2 := by
  induction xs with
  | nil => intro m hz; simpa [localizeNodes] using hz
  | cons p rest ih =>
      intro m hz
      obtain ⟨src, ns⟩ := p
      simpa [localizeNodes] using
        ih _ (zeroOnlyLocal_resolveSource (effectiveOrigin address rl src) hz)

/-- Splitting the origin list splits the localized output at the same
place, threading the registry. -/
theorem localizeNodes_append (address : String) (rl : Bool)
    (xs ys : List (String × List Node)) :
    ∀ m, localizeNodes address rl m (xs ++ ys)
      = ((localizeNodes address rl m xs).1
          ++ (localizeNodes address rl (localizeNodes address rl m xs).2 ys).1,
         (localizeNodes address rl (localizeNodes address rl m xs).2 ys).2) := by
  induction xs with
  | nil => intro m; simp [localizeNodes]
  | cons p rest ih =>
      intro m
      obtain ⟨src, ns⟩ := p
      simp [localizeNodes, ih]

/-- A failed fetch (transport, decode, or remote-reported error) yields
the `nil` slice and leaves the registry untouched. -/
theorem GetAllFromChildMap_of_failed {o : FetchOutcome} (address : String)
    (m : List (String × Int)) (hf : fetchFailed o = true) :
    GetAllFromChildMap address o m = (none, m) := by
  cases o with
  | transportError => rfl
  | decodeError => rfl
  | ok w =>
      rw [fetchFailed, Option.isSome_iff_exists] at hf
      obtain ⟨e, he⟩ := hf
      simp [GetAllFromChildMap, he]

/-- The insert loop executes every row when the store accepts all of
them. -/
theorem cacheNodesLoop_all_ok (exec : CachedRow → Option String) (now : Int)
    (hexec : ∀ r, exec r = none) :
    ∀ nodes, cacheNodesLoop exec now nodes = (nodes.map (rowOfNode now), none) := by
  intro nodes
  induction nodes with
  | nil => rfl
  | cons n rest ih => simp [cacheNodesLoop, hexec, ih]

/-- The insert loop stops at the first row the store rejects, having
executed exactly the preceding rows, and returns the store's error. -/
theorem cacheNodesLoop_append_fail (exec : CachedRow → Option String)
    (now : Int) (post : List Node) (bad : Node) (e : String)
    (hbad : exec (rowOfNode now bad) = some e) :
    ∀ pre, (∀ n ∈ pre, exec (rowOfNode now n) = none) →
      cacheNodesLoop exec now (pre ++ bad :: post)
        = (pre.map (rowOfNode now), some e) := by
  intro pre
  induction pre with
  | nil => intro _; simp [cacheNodesLoop, hbad]
  | cons n rest ih =>
      intro hpre
      have hn : exec (rowOfNode now n) = none := hpre n (List.mem_cons_self n rest)
      have hrest := ih fun x hx => hpre x (List.mem_cons_of_mem n hx)
      simp [cacheNodesLoop, hn, hrest]

/-- C1: the claim says concurrent resolution of one hostname always
yields one ID because the allocation path re-checks presence after
taking the write lock; the code (src/cache.go lines 261-274) has no such
re-check.  With the registry seeded `{"local": 0}` and two fetcher
threads both resolving `"child.example"`, the interleaving
read/read/write/write hands thread 0 the ID 2 and thread 1 the ID 3 —
two different IDs for the same hostname — leaves the registry mapping
`"child.example"` to 3, and a subsequent first resolution of
`"other.example"` also allocates 3, a duplicate ID across distinct
hostnames. -/
theorem c1_no_recheck_gives_divergent_and_duplicate_ids :
    ((runSchedule [0, 1, 0, 1] [("local", 0)]
        [⟨"child.example", .start⟩, ⟨"child.example", .start⟩]).2
      = [⟨"child.example", .done 2⟩, ⟨"child.example", .done 3⟩])
    ∧ (lookupSource (runSchedule [0, 1, 0, 1] [("local", 0)]
        [⟨"child.example", .start⟩, ⟨"child.example", .start⟩]).1
        "child.example" = some 3)
    ∧ ((resolveSource (runSchedule [0, 1, 0, 1] [("local", 0)]
        [⟨"child.example", .start⟩, ⟨"child.example", .start⟩]).1
        "other.example").1 = 3) := by
  decide

/-- C2: the claim (and the code's own comment at src/cache.go lines
265-266) says a fresh hostname gets `id = current_size`, so the first
first-time resolution over the seed `{"local": 0}` yields 1; the code
computes `len(*sourceToID) + 1`, so it yields 2 (and the next fresh
hostname 3): successive allocations increase from 2, and ID 1 is never
assigned. -/
theorem c2_first_allocation_is_two_not_one :
    ((resolveSource [("local", 0)] "a.example").1 = 2)
    ∧ ((resolveSource (resolveSource [("local", 0)] "a.example").2
        "b.example").1 = 3)
    ∧ (lookupSource (resolveSource [("local", 0)] "a.example").2
        "a.example" = some 2) := by
  decide

/-- C3: the claim says the pass spawns one fetch task per configured
hostname, each fetching from its own hostname; but the goroutine at
src/cache.go line 170 captures the shared `range` loop variable, so when
both goroutines start after the spawn loop has finished (read index 1),
both fetch from `"b.example"`: the merged collection holds
`sampleNodeB` twice, `sampleNodeA` (served only by `"a.example"`) never
appears, and `"a.example"` is never entered into the registry. -/
theorem c3_loop_capture_fetches_last_address_twice :
    (mergedNodes ["a.example", "b.example"]
        (fun a =>
          if a == "a.example" then .ok ⟨[("local", [sampleNodeA])], none⟩
          else if a == "b.example" then .ok ⟨[("local", [sampleNodeB])], none⟩
          else .transportError)
        (fun _ => 1) [("local", 0)] [0, 1]
      = [stampSource 2 sampleNodeB, stampSource 2 sampleNodeB])
    ∧ (lookupSource (runTasks ["a.example", "b.example"]
        (fun a =>
          if a == "a.example" then .ok ⟨[("local", [sampleNodeA])], none⟩
          else if a == "b.example" then .ok ⟨[("local", [sampleNodeB])], none⟩
          else .transportError)
        (fun _ => 1) [("local", 0)] [0, 1]).2 "a.example" = none) := by
  decide

/-- C9: the two cache-insert statements use mismatched column sets:
CacheNode's statement names `expiration` but not `source`/`retrieved`,
CacheNodes' names `source`/`retrieved` but not `expiration`, and
CacheNode names 6 columns against 7 value placeholders while CacheNodes
is balanced at 7/7. -/
theorem c9_mismatched_column_sets :
    ("expiration" ∈ columnsOf cacheNodeSQL)
    ∧ ("expiration" ∉ columnsOf cacheNodesSQL)
    ∧ ("source" ∈ columnsOf cacheNodesSQL)
    ∧ ("source" ∉ columnsOf cacheNodeSQL)
    ∧ ("retrieved" ∈ columnsOf cacheNodesSQL)
    ∧ ("retrieved" ∉ columnsOf cacheNodeSQL)
    ∧ ((columnsOf cacheNodeSQL).length = 6)
    ∧ (placeholderCount cacheNodeSQL = 7)
    ∧ ((columnsOf cacheNodeSQL).length ≠ placeholderCount cacheNodeSQL)
    ∧ ((columnsOf cacheNodesSQL).length = placeholderCount cacheNodesSQL) := by
  decide

/-- C10: CacheNode never reads its `expiry` parameter — for any node and
any two expiry values it prepares the same statement and executes the
same argument tuple — and in that tuple the node's SourceID sits at
position 4, which the column list assigns to `status`, while the node's
Status sits at position 5, assigned to `expiration`. -/
theorem c10_cacheNode_ignores_expiry (node : Node) (e1 e2 : Int) :
    (CacheNode node e1 = CacheNode node e2)
    ∧ ((CacheNode node e1).2[4]? = some (.i node.sourceID))
    ∧ ((columnsOf cacheNodeSQL)[4]? = some "status")
    ∧ ((CacheNode node e1).2[5]? = some (.i node.status))
    ∧ ((columnsOf cacheNodeSQL)[5]? = some "expiration") := by
  refine ⟨rfl, rfl, by decide, rfl, by decide⟩

/-- C10 witness: the sample node with expiry values 3 and 4. -/
theorem c10_witness :
    (CacheNode sampleNodeA 3 = CacheNode sampleNodeA 4)
    ∧ ((CacheNode sampleNodeA 3).2[4]? = some (.i sampleNodeA.sourceID))
    ∧ ((columnsOf cacheNodeSQL)[4]? = some "status")
    ∧ ((CacheNode sampleNodeA 3).2[5]? = some (.i sampleNodeA.status))
    ∧ ((columnsOf cacheNodeSQL)[5]? = some "expiration") :=
  c10_cacheNode_ignores_expiry sampleNodeA 3 4

/-- C4: the aggregation pass returns an error exactly when loading the
source registry fails or the final batch commit reports an error; and a
task whose fetch fails (transport, decode, or remote-reported error)
contributes zero records to the merged collection and leaves the
registry untouched, so it never affects the pass's result. -/
theorem c4_pass_fails_iff_load_or_commit_fails (addresses : List String)
    (dbRows : Except String (List (String × Int)))
    (fetch : String → FetchOutcome) (readIdx : Nat → Nat) (order : List Nat)
    (prepareErr : Option String) (exec : CachedRow → Option String)
    (now : Int) :
    ((∃ e, GetAllFromChildMaps addresses dbRows fetch readIdx order
        prepareErr exec now = .error e)
      ↔ ((∃ e, dbRows = .error e)
          ∨ ∃ m0, GetMapSourceToID dbRows = .ok m0 ∧
              (CacheNodes prepareErr exec now
                (mergedNodes addresses fetch readIdx m0 order)).2 ≠ none))
    ∧ (∀ i rest m,
        fetchFailed (fetch (effectiveAddress addresses i (readIdx i))) = true →
        runTasks addresses fetch readIdx m (i :: rest)
          = runTasks addresses fetch readIdx m rest) := by
  constructor
  · cases dbRows with
    | error e => simp [GetAllFromChildMaps, GetMapSourceToID]
    | ok rows =>
        cases hc : (CacheNodes prepareErr exec now
            (mergedNodes addresses fetch readIdx
              (rows.foldl (fun m p => insertSource m p.1 p.2) [("local", 0)])
              order)).2 with
        | none => simp [GetAllFromChildMaps, GetMapSourceToID, hc]
        | some e => simp [GetAllFromChildMaps, GetMapSourceToID, hc]
  · intro i rest m hf
    have ht : taskFetch addresses fetch readIdx m i = (none, m) := by
      rw [taskFetch, GetAllFromChildMap_of_failed _ _ hf]
    simp [runTasks, ht]

/-- C4 witness: with a single remote whose fetch fails at the transport
level, the task contributes nothing: running the schedule with the task
equals running it without the task. -/
theorem c4_witness :
    runTasks ["a.example"] (fun _ => FetchOutcome.transportError)
        (fun _ => 0) [("local", 0)] [0]
      = runTasks ["a.example"] (fun _ => FetchOutcome.transportError)
        (fun _ => 0) [("local", 0)] [] :=
  (c4_pass_fails_iff_load_or_commit_fails ["a.example"] (Except.ok [])
      (fun _ => FetchOutcome.transportError) (fun _ => 0) [0] none
      (fun _ => none) 0).2 0 [] [("local", 0)] (by decide)

/-- C5 counterexample: the claim says a list decoded under the literal
origin `"local"` is never stamped with ID 0; but fetching from the
configured address `"local"` itself substitutes that very hostname,
which the registry resolves to 0, so the node (whose original source_id
was 7) is stamped with 0. -/
theorem c5_counterexample_local_address_stamps_zero :
    ((GetAllFromChildMap "local"
        (.ok ⟨[("local", [sampleNodeA])], none⟩) [("local", 0)]).1
      = some [stampSource 0 sampleNodeA])
    ∧ ((stampSource 0 sampleNodeA).sourceID = 0)
    ∧ (sampleNodeA.sourceID = 7) := by
  decide

/-- C5 (amended: the queried hostname is not itself the reserved label
`"local"`, and the registry maps only `"local"` to 0): every node list
decoded under the literal origin `"local"` from a remote at hostname
`address` is stamped — overwriting any prior source_id — with the ID the
Source Registry resolves for `address` itself at that point of the scan,
and that ID is never 0. -/
theorem c5_local_label_stamped_with_host_id (address : String)
    (m : List (String × Int)) (w : nodeDumpWrapper)
    (pre post : List (String × List Node)) (ns : List Node)
    (hne : address ≠ "local") (hz : zeroOnlyLocal m)
    (hdata : w.data = pre ++ ("local", ns) :: post) (herr : w.error = none) :
    ∃ A B, (GetAllFromChildMap address (.ok w) m).1
      = some (A ++ ns.map (stampSource
          (resolveSource (localizeNodes address false m pre).2 address).1)
          ++ B)
      ∧ (resolveSource (localizeNodes address false m pre).2 address).1 ≠ 0 := by
  have hz2 : zeroOnlyLocal (localizeNodes address false m pre).2 :=
    zeroOnlyLocal_localizeNodes address false pre m hz
  have heff : effectiveOrigin address false "local" = address := by
    simp [effectiveOrigin]
  refine ⟨(localizeNodes address false m pre).1,
    (localizeNodes address false
      (resolveSource (localizeNodes address false m pre).2 address).2 post).1,
    ?_, resolveSource_fst_ne_zero hz2 hne⟩
  simp [GetAllFromChildMap, herr, hdata, localizeNodes_append, localizeNodes,
    heff]

/-- C5 witness: a remote at `"a.example"` reporting one node under the
literal label `"local"`, against the freshly seeded registry. -/
theorem c5_witness :
    ∃ A B, (GetAllFromChildMap "a.example"
        (.ok ⟨[("local", [sampleNodeB])], none⟩) [("local", 0)]).1
      = some (A ++ [sampleNodeB].map (stampSource
          (resolveSource
            (localizeNodes "a.example" false [("local", 0)] []).2
            "a.example").1) ++ B)
      ∧ (resolveSource (localizeNodes "a.example" false [("local", 0)] []).2
          "a.example").1 ≠ 0 :=
  c5_local_label_stamped_with_host_id "a.example" [("local", 0)]
    ⟨[("local", [sampleNodeB])], none⟩ [] [] [sampleNodeB]
    (by decide) (by decide) rfl rfl

/-- C6: when the store rejects a row partway through the batch,
CacheNodes executes exactly the rows before the failing one — nothing
after it is written — and the aggregation pass surfaces exactly that
error to its caller. -/
theorem c6_commit_aborts_on_first_store_error
    (exec : CachedRow → Option String) (now : Int)
    (pre post : List Node) (bad : Node) (e : String)
    (hpre : ∀ n ∈ pre, exec (rowOfNode now n) = none)
    (hbad : exec (rowOfNode now bad) = some e) :
    (CacheNodes none exec now (pre ++ bad :: post)
      = (pre.map (rowOfNode now), some e))
    ∧ (∀ addresses fetch readIdx order dbRows m0,
        GetMapSourceToID dbRows = Except.ok m0 →
        mergedNodes addresses fetch readIdx m0 order = pre ++ bad :: post →
        GetAllFromChildMaps addresses dbRows fetch readIdx order none exec now
          = Except.error e) := by
  have h1 : CacheNodes none exec now (pre ++ bad :: post)
      = (pre.map (rowOfNode now), some e) := by
    rw [CacheNodes]
    exact cacheNodesLoop_append_fail exec now post bad e hbad pre hpre
  refine ⟨h1, ?_⟩
  intro addresses fetch readIdx order dbRows m0 hload hmerge
  rw [GetAllFromChildMaps, hload]
  simp [hmerge, h1]

/-- C6 witness: a store that rejects rows with retrieval timestamp 99;
the batch holds one good row, the failing row, then one more row.  Only
the good row is executed and the error is returned. -/
theorem c6_witness :
    CacheNodes none
        (fun r => if r.retrieved = 99 then some "boom" else none) 7
        ([sampleNodeB] ++ { sampleNodeA with retrieveTime := 99 } ::
          [sampleNodeA])
      = ([sampleNodeB].map (rowOfNode 7), some "boom") :=
  (c6_commit_aborts_on_first_store_error
    (fun r => if r.retrieved = 99 then some "boom" else none) 7
    [sampleNodeB] [sampleNodeA] { sampleNodeA with retrieveTime := 99 }
    "boom" (by decide) (by decide)).1

/-- C7: in a committed batch, the retrieved column holds the commit-time
Unix timestamp for every node whose RetrieveTime was zero, and the
node's own RetrieveTime unchanged otherwise. -/
theorem c7_retrieved_defaulted_at_commit (exec : CachedRow → Option String)
    (now : Int) (nodes : List Node) (hexec : ∀ r, exec r = none) :
    (CacheNodes none exec now nodes).1.map (fun r => r.retrieved)
      = nodes.map
          (fun n => if n.retrieveTime = 0 then now else n.retrieveTime) := by
  rw [CacheNodes, cacheNodesLoop_all_ok exec now hexec nodes]
  simp [rowOfNode]

/-- C7 witness: committing at time 100 a node with RetrieveTime 0 and a
node with RetrieveTime 5. -/
theorem c7_witness :
    (CacheNodes none (fun _ => none) 100 [sampleNodeA, sampleNodeB]).1.map
        (fun r => r.retrieved)
      = [sampleNodeA, sampleNodeB].map
          (fun n => if n.retrieveTime = 0 then 100 else n.retrieveTime) :=
  c7_retrieved_defaulted_at_commit (fun _ => none) 100
    [sampleNodeA, sampleNodeB] (fun _ => rfl)

/-- C8: within a single remote's contribution, decoded order is
preserved: every origin's node list appears in the fetcher's result as a
contiguous run in its decoded order (stamped with one resolved ID). -/
theorem c8_per_origin_order_preserved (address src : String)
    (m : List (String × Int)) (w : nodeDumpWrapper)
    (pre post : List (String × List Node)) (ns : List Node)
    (hdata : w.data = pre ++ (src, ns) :: post) (herr : w.error = none) :
    ∃ A B id, (GetAllFromChildMap address (.ok w) m).1
      = some (A ++ ns.map (stampSource id) ++ B) := by
  refine ⟨(localizeNodes address false m pre).1,
    (localizeNodes address false
      (resolveSource (localizeNodes address false m pre).2
        (effectiveOrigin address false src)).2 post).1,
    (resolveSource (localizeNodes address false m pre).2
      (effectiveOrigin address false src)).1, ?_⟩
  simp [GetAllFromChildMap, herr, hdata, localizeNodes_append, localizeNodes]

/-- C8 witness: a remote reporting two origins, the second with two
nodes; those two nodes appear contiguously in decoded order. -/
theorem c8_witness :
    ∃ A B id, (GetAllFromChildMap "a.example"
        (.ok ⟨[("x.example", [sampleNodeA]),
               ("y.example", [sampleNodeA, sampleNodeB])], none⟩)
        [("local", 0)]).1
      = some (A ++ [sampleNodeA, sampleNodeB].map (stampSource id) ++ B) :=
  c8_per_origin_order_preserved "a.example" "y.example" [("local", 0)]
    ⟨[("x.example", [sampleNodeA]),
      ("y.example", [sampleNodeA, sampleNodeB])], none⟩
    [("x.example", [sampleNodeA])] [] [sampleNodeA, sampleNodeB] rfl rfl

end NodeAtlas
